import Mathlib

/-!
Shallow embedding of the ISR render-and-cache orchestration engine found in
src/server/src/puppeteer-ssr/utils/ISRHandler.ts, together with the
constants it consumes from src/server/dist/puppeteer-ssr/constants.js, and
theorems checking the natural-language specification against it.

External collaborators (the HTTP fetch, the browser page, the cache manager
and the optimization worker pool) are modelled as oracles carried in an
environment record.  Every externally visible call the handler makes is
recorded in an effect trace, so that statements of the form "no acquisition
is attempted" or "the cache is never written" become statements about that
trace.  Clock readings are explicit: the source calls Date.now at entry
(line 137), inside the first budget check (line 138) and inside the second
budget check (line 144); these are the fields t0, t1 and t2 below.
-/

namespace ISR

/-- RenderResult: a status plus optional html, the shape the handler
returns (ISSRResult in the source). -/
structure RenderResult where
  status : Int
  html : Option String
deriving Repr, DecidableEq

/-- FetchResponse: the status and body pair built by fetchData
(ISRHandler.ts lines 52 to 58). -/
structure FetchResponse where
  status : Int
  data : String
deriving Repr, DecidableEq

/-- FetchError: the two ways the try block of fetchData can throw, namely a
network failure of the fetch call itself, or a throwing JSON.parse on a
brace-delimited body (ISRHandler.ts lines 52 to 62). -/
inductive FetchError where
  | network
  | jsonParseFail
deriving Repr, DecidableEq

/-- WaitOutcome: the observable outcomes of waitResponse as seen by its
caller at ISRHandler.ts lines 235 to 250: success carrying the optional
navigation response status, an error whose name is TimeoutError, or any
other error. -/
inductive WaitOutcome where
  | ok (responseStatus : Option Int)
  | timeoutErr
  | fatalErr
deriving Repr, DecidableEq

/-- Effect: one entry per externally visible collaborator call the handler
makes, in program order. -/
inductive Effect where
  | cacheAchieve (url : String)
  | cacheSet (url : String) (html : String) (isRaw : Bool)
  | cacheRemove (url : String)
  | externalCrawl (url : String)
  | browserNewPage
  | optimizeExec (html : String) (deep : Bool)
deriving Repr, DecidableEq

/-- isNewPageEffect: recognizer for the browser page acquisition effect,
used to count how often the browser-render path is entered. -/
def isNewPageEffect : Effect → Bool
  | Effect.browserNewPage => true
  | _ => false

/-- IISRHandlerParam: the parameter record of ISRHandler (ISRHandler.ts
lines 27 to 31).  Note the destructuring at line 136 takes only
isFirstRequest and url; the startGenerating field is never read. -/
structure IISRHandlerParam where
  startGenerating : Int
  isFirstRequest : Bool
  url : String
deriving Repr, DecidableEq

/-- Env: oracles for the collaborators and clock.  The fields t0, t1, t2
are the successive Date.now readings (entry, first budget check, second
budget check); durationTimeout is DURATION_TIMEOUT (constants.js lines 143
to 148); crawler and crawlerSecretKey mirror ServerConfig (none stands for
a falsy value); netResult is none when the fetch call itself throws;
jsonParse returns none when JSON.parse throws; hasPage is whether
browserManager.newPage returns a usable page; setupOk is whether the
interception and header setup before navigation succeeds; pageContent is
none when page.content throws; achieveResult and setResult are the values
returned by cacheManager.achieve and cacheManager.set; optimize returns
none when the worker pool job throws. -/
structure Env where
  t0 : Int
  t1 : Int
  t2 : Int
  durationTimeout : Int
  crawler : Option String
  crawlerSecretKey : Option String
  netResult : Option FetchResponse
  jsonParse : String → Option String
  hasPage : Bool
  setupOk : Bool
  waitOutcome : WaitOutcome
  pageContent : Option String
  notFoundPageID : String
  achieveResult : Option RenderResult
  setResult : Option RenderResult
  optimize : String → Option String

/-- gapDurationDefault embeds the constant at ISRHandler.ts line 134. -/
def gapDurationDefault : Int := 1500

/-- getRestOfDuration embeds ISRHandler.ts lines 33 to 37.  The source
reads DURATION_TIMEOUT and the current clock from its surroundings, so both
are explicit parameters here.  A falsy (zero) startGenerating
short-circuits to zero before the subtraction is ever computed. -/
def getRestOfDuration (durationTimeout now startGenerating gapDuration : Int) : Int :=
  if startGenerating = 0 then 0
  else durationTimeout - gapDuration - (now - startGenerating)

/-- rem1: the value of the first budget check (ISRHandler.ts line 138),
taken at clock reading t1 with the fixed 1500 ms gap. -/
def rem1 (env : Env) : Int :=
  getRestOfDuration env.durationTimeout env.t1 env.t0 gapDurationDefault

/-- rem2: the value of the second budget check (ISRHandler.ts line 144),
taken at clock reading t2 with the fixed 1500 ms gap. -/
def rem2 (env : Env) : Int :=
  getRestOfDuration env.durationTimeout env.t2 env.t0 gapDurationDefault

/-- lbraceChar is the opening curly brace character. -/
def lbraceChar : Char := Char.ofNat 123

/-- rbraceChar is the closing curly brace character. -/
def rbraceChar : Char := Char.ofNat 125

/-- dquoteChar is the double quote character. -/
def dquoteChar : Char := Char.ofNat 34

/-- squoteChar is the single quote character. -/
def squoteChar : Char := Char.ofNat 39

/-- isJsonShape embeds the anchored regex test at ISRHandler.ts line 60: an
opening brace at the start, any characters (the lazy middle group also
admits newlines), and a closing brace at the very end.  With backtracking
this holds exactly when the string has length at least two, starts with an
opening brace and ends with a closing brace. -/
def isJsonShape (s : String) : Bool :=
  let l := s.toList
  decide (2 ≤ l.length) && l.head? == some lbraceChar && l.getLast? == some rbraceChar

/-- fetchDataBody: the try block of fetchData (ISRHandler.ts lines 44 to
67) as a fallible computation.  A network error surfaces as
FetchError.network; a body of JSON shape is handed to JSON.parse, whose
throw surfaces as FetchError.jsonParseFail; otherwise the response is
returned with its body verbatim. -/
def fetchDataBody (netResult : Option FetchResponse) (jsonParse : String → Option String) :
    Except FetchError FetchResponse :=
  match netResult with
  | none => Except.error FetchError.network
  | some resp =>
      if isJsonShape resp.data then
        match jsonParse resp.data with
        | none => Except.error FetchError.jsonParseFail
        | some v => Except.ok { status := resp.status, data := v }
      else Except.ok resp

/-- fetchData embeds ISRHandler.ts lines 39 to 75: the catch clause at
lines 68 to 74 converts any thrown error into a plain response with status
500 and empty data, so the function is total. -/
def fetchData (netResult : Option FetchResponse) (jsonParse : String → Option String) :
    FetchResponse :=
  match fetchDataBody netResult jsonParse with
  | Except.error _ => { status := 500, data := "" }
  | Except.ok r => r

/-- matchChars: needle matches at the head of the haystack. -/
def matchChars : List Char → List Char → Bool
  | [], _ => true
  | _ :: _, [] => false
  | a :: as, b :: bs => a == b && matchChars as bs

/-- hasSubChars: needle occurs somewhere in the haystack. -/
def hasSubChars (needle : List Char) : List Char → Bool
  | [] => matchChars needle []
  | b :: bs => matchChars needle (b :: bs) || hasSubChars needle bs

/-- strContains: substring occurrence on strings, via their char lists. -/
def strContains (hay needle : String) : Bool :=
  hasSubChars needle.toList hay.toList

/-- notFoundMarkerTest embeds the unanchored regexNotFoundPageID search of
constants.js lines 159 to 162: the text id= followed by an optional double
or single quote, then the configured not-found page id, then another
optional quote.  Both quotes being optional, the regex finds a match
exactly when the html contains one of the three literal forms below. -/
def notFoundMarkerTest (notFoundPageID html : String) : Bool :=
  strContains html (String.append ("id=") notFoundPageID) ||
  strContains html (String.append (String.append ("id=") (String.singleton dquoteChar)) notFoundPageID) ||
  strContains html (String.append (String.append ("id=") (String.singleton squoteChar)) notFoundPageID)

/-- cacheableStatus embeds the CACHEABLE_STATUS_CODE lookup of constants.js
lines 164 to 165: the object holds true at keys 200 and 302 and is
undefined elsewhere. -/
def cacheableStatus (status : Int) : Bool :=
  status == 200 || status == 302

/-- classifyBrowserStatus embeds ISRHandler.ts line 274: the status becomes
404 exactly when the serialized html is truthy (non-empty) and the
not-found marker regex finds a match in it, and 200 otherwise. -/
def classifyBrowserStatus (notFoundPageID html : String) : Int :=
  if html ≠ "" ∧ notFoundMarkerTest notFoundPageID html = true then 404 else 200

/-- classifyAndFinish embeds ISRHandler.ts lines 282 to 314: when the
status is cacheable the html is submitted to the optimization pool with
deep set to true (line 293); a throwing job returns nothing and writes
nothing; on success cacheManager.set is called with the optimized html and
isRaw true and its return value is the result.  When the status is not
cacheable, cacheManager.remove is called and the literal not-found text
replaces the html exactly when the status is 404. -/
def classifyAndFinish (env : Env) (url : String) (status : Int) (html : String) :
    Option RenderResult × List Effect :=
  if cacheableStatus status then
    match env.optimize html with
    | none => (none, [Effect.optimizeExec html true])
    | some optimized =>
        (env.setResult, [Effect.optimizeExec html true, Effect.cacheSet url optimized true])
  else
    (some { status := status, html := some (if status = 404 then ("Page not found!") else html) },
      [Effect.cacheRemove url])

/-- browserPath embeds ISRHandler.ts lines 191 to 275.  A missing page
handle falls back to cacheManager.achieve only when the request is not the
first one, else returns nothing (lines 194 to 201).  A throwing setup step
returns status 500 (lines 252 to 259), as does a non timeout error of
waitResponse via the isGetHtmlProcessError flag (lines 237 to 243 and 261
to 264).  A throwing page.content returns nothing (lines 266 to 272).
Otherwise the status assigned from the navigation response at line 245 is
only logged and is unconditionally overwritten by the sentinel
classification at line 274 before the classify step runs, so the statusIn
argument never influences the outcome. -/
def browserPath (env : Env) (isFirstRequest : Bool) (url : String) (_statusIn : Int) :
    Option RenderResult × List Effect :=
  if env.hasPage = false then
    if isFirstRequest = false then
      (env.achieveResult, [Effect.browserNewPage, Effect.cacheAchieve url])
    else (none, [Effect.browserNewPage])
  else if env.setupOk = false then (some { status := 500, html := none }, [Effect.browserNewPage])
  else
    match env.waitOutcome with
    | WaitOutcome.fatalErr => (some { status := 500, html := none }, [Effect.browserNewPage])
    | _ =>
        match env.pageContent with
        | none => (none, [Effect.browserNewPage])
        | some html =>
            let status := classifyBrowserStatus env.notFoundPageID html
            let out := classifyAndFinish env url status html
            (out.fst, Effect.browserNewPage :: out.snd)

/-- ISRHandler embeds ISRHandler.ts lines 136 to 315.  The handler takes
its own Date.now reading as startGenerating (line 137) and never reads the
startGenerating field of its parameter.  The first budget check (line 138)
returns nothing; the second (lines 144 to 153) falls back to
cacheManager.achieve when the request is not the first one.  When
ServerConfig.crawler is configured, fetchData is consulted (lines 158 to
189) and the browser path runs only when it reported status 500; without a
configured crawler the browser path always runs (line 191).  A successful
acquisition then goes through classifyAndFinish. -/
def ISRHandler (env : Env) (p : IISRHandlerParam) : Option RenderResult × List Effect :=
  if rem1 env ≤ 0 then (none, [])
  else if rem2 env ≤ 0 then
    if p.isFirstRequest = false then (env.achieveResult, [Effect.cacheAchieve p.url])
    else (none, [])
  else
    match env.crawler with
    | some _ =>
        let result := fetchData env.netResult env.jsonParse
        let status := result.status
        let html := result.data
        if status = 500 then
          let out := browserPath env p.isFirstRequest p.url status
          (out.fst, Effect.externalCrawl p.url :: out.snd)
        else
          let out := classifyAndFinish env p.url status html
          (out.fst, Effect.externalCrawl p.url :: out.snd)
    | none =>
        browserPath env p.isFirstRequest p.url 200

/-- baseEnv: a concrete healthy environment used by the witnesses below. -/
def baseEnv : Env where
  t0 := 1000
  t1 := 1000
  t2 := 1000
  durationTimeout := 20000
  crawler := none
  crawlerSecretKey := none
  netResult := none
  jsonParse := fun _ => none
  hasPage := true
  setupOk := true
  waitOutcome := WaitOutcome.ok none
  pageContent := some ("")
  notFoundPageID := "404-page"
  achieveResult := none
  setResult := some { status := 200, html := none }
  optimize := fun s => some s

/-- envC1 is an environment whose budget is already exhausted at the first
check: the configured total timeout is below the fixed 1500 ms gap. -/
def envC1 : Env :=
  { baseEnv with
    durationTimeout := 1000
    t0 := 5
    t1 := 5
    t2 := 5
    achieveResult := some { status := 200, html := some ("cached") } }

/-- pC1 is a non-first request. -/
def pC1 : IISRHandlerParam :=
  { startGenerating := 5, isFirstRequest := false, url := "https://site/a" }

/-- envC1w passes the first budget check but fails the second, because the
second clock reading is far later. -/
def envC1w : Env :=
  { baseEnv with
    t2 := 50000
    achieveResult := some { status := 200, html := some ("stale") } }

/-- pC1w is a non-first request. -/
def pC1w : IISRHandlerParam :=
  { startGenerating := 1000, isFirstRequest := false, url := "https://site/b" }

/-- envC3 has a configured crawler returning plain html, and an
optimization pool whose job always throws. -/
def envC3 : Env :=
  { baseEnv with
    crawler := some ("https://crawler")
    netResult := some { status := 200, data := "<html>x</html>" }
    optimize := fun _ => none }

/-- pC3 is a first request. -/
def pC3 : IISRHandlerParam :=
  { startGenerating := 0, isFirstRequest := true, url := "https://site/h" }

/-- envC5 has a configured crawler whose fetch throws, so fetchData reports
status 500. -/
def envC5 : Env :=
  { baseEnv with crawler := some ("https://crawler") }

/-- envC7 has no crawler and a browser manager that yields no page. -/
def envC7 : Env :=
  { baseEnv with hasPage := false }

/-- pC7 is a first request. -/
def pC7 : IISRHandlerParam :=
  { startGenerating := 0, isFirstRequest := true, url := "https://site/f" }

/-- envC9 serves a page whose serialized content carries the not-found
sentinel element. -/
def envC9 : Env :=
  { baseEnv with pageContent := some ("<div id=\x22404-page\x22></div>") }

/-! Helper lemmas, shared by several claim proofs. -/

/-- Helper: the trace of the browser path always begins with the page
acquisition effect. -/
lemma browserPath_head (env : Env) (f : Bool) (url : String) (s : Int) :
    (browserPath env f url s).snd.head? = some Effect.browserNewPage := by
  by_cases hp : env.hasPage = false
  · by_cases hf : f = false <;> simp [browserPath, hp, hf]
  · by_cases hsetup : env.setupOk = false
    · simp [browserPath, hp, hsetup]
    · cases hw : env.waitOutcome <;> cases hcont : env.pageContent <;>
        simp [browserPath, hp, hsetup, hw, hcont]

/-- Helper: the classify step never acquires a browser page. -/
lemma classify_newPage_count (env : Env) (url : String) (s : Int) (h : String) :
    ((classifyAndFinish env url s h).snd.countP isNewPageEffect) = 0 := by
  by_cases hc : cacheableStatus s = true
  · cases ho : env.optimize h <;>
      simp [classifyAndFinish, hc, ho, isNewPageEffect, List.countP_cons, List.countP_nil]
  · simp [classifyAndFinish, hc, isNewPageEffect, List.countP_cons, List.countP_nil]

/-- Helper: the browser path acquires exactly one page. -/
lemma browserPath_newPage_count (env : Env) (f : Bool) (url : String) (s : Int) :
    ((browserPath env f url s).snd.countP isNewPageEffect) = 1 := by
  by_cases hp : env.hasPage = false
  · by_cases hf : f = false <;>
      simp [browserPath, hp, hf, isNewPageEffect, List.countP_cons, List.countP_nil]
  · by_cases hsetup : env.setupOk = false
    · simp [browserPath, hp, hsetup, isNewPageEffect, List.countP_cons, List.countP_nil]
    · cases hw : env.waitOutcome <;> cases hcont : env.pageContent <;>
        simp [browserPath, hp, hsetup, hw, hcont, isNewPageEffect,
          List.countP_cons, List.countP_nil, classify_newPage_count]

/-- Helper: with a failing optimizer the classify step never writes the
cache. -/
lemma classify_set_free_of_optfail (env : Env) (url : String) (s : Int) (h : String)
    (hopt : ∀ x, env.optimize x = none) (u v : String) (b : Bool) :
    Effect.cacheSet u v b ∉ (classifyAndFinish env url s h).snd := by
  by_cases hc : cacheableStatus s = true <;> simp [classifyAndFinish, hc, hopt]

/-- Helper: with a failing optimizer the browser path never writes the
cache. -/
lemma browserPath_set_free_of_optfail (env : Env) (f : Bool) (url : String) (s : Int)
    (hopt : ∀ x, env.optimize x = none) (u v : String) (b : Bool) :
    Effect.cacheSet u v b ∉ (browserPath env f url s).snd := by
  by_cases hp : env.hasPage = false
  · by_cases hf : f = false <;> simp [browserPath, hp, hf]
  · by_cases hsetup : env.setupOk = false
    · simp [browserPath, hp, hsetup]
    · cases hw : env.waitOutcome <;> cases hcont : env.pageContent <;>
        simp [browserPath, hp, hsetup, hw, hcont,
          classify_set_free_of_optfail env url _ _ hopt u v b]

/-- Helper: an optimization effect in the classify trace means the status
was cacheable, so with a failing optimizer the classify result is none. -/
lemma classify_optexec_none (env : Env) (url : String) (s : Int) (h : String)
    (hopt : ∀ x, env.optimize x = none) (v : String) (b : Bool)
    (hm : Effect.optimizeExec v b ∈ (classifyAndFinish env url s h).snd) :
    (classifyAndFinish env url s h).fst = none := by
  by_cases hc : cacheableStatus s = true
  · simp [classifyAndFinish, hc, hopt]
  · simp [classifyAndFinish, hc] at hm

/-- Helper: an optimization effect in the browser path trace with a failing
optimizer forces the browser path result to be none. -/
lemma browserPath_optexec_none (env : Env) (f : Bool) (url : String) (s : Int)
    (hopt : ∀ x, env.optimize x = none) (v : String) (b : Bool)
    (hm : Effect.optimizeExec v b ∈ (browserPath env f url s).snd) :
    (browserPath env f url s).fst = none := by
  by_cases hp : env.hasPage = false
  · by_cases hf : f = false <;> simp [browserPath, hp, hf] at hm ⊢
  · by_cases hsetup : env.setupOk = false
    · simp [browserPath, hp, hsetup] at hm
    · cases hw : env.waitOutcome <;> cases hcont : env.pageContent <;>
        simp [browserPath, hp, hsetup, hw, hcont] at hm ⊢ <;>
        exact classify_optexec_none env url _ _ hopt v b hm

/-- C6 counterexample: the claim states that remaining always equals the
formula DURATION_TIMEOUT - gap - (now - startedAt) and is strictly
decreasing in the gap; but for a falsy startedAt of 0 the source returns 0
before computing the formula, so at startedAt 0 the value differs from the
formula and does not change with the gap. -/
theorem getRestOfDuration_zero_start_cex :
    getRestOfDuration 20000 7 0 1500 = 0 ∧
    (20000 : Int) - 1500 - (7 - 0) = 18493 ∧
    (0 : Int) ≠ 18493 ∧
    getRestOfDuration 20000 7 0 1500 = getRestOfDuration 20000 7 0 2000 := by
  decide

/-- C6 amended: for every nonzero startedAt, remaining equals
DURATION_TIMEOUT - gap - (now - startedAt), is monotonically decreasing in
the elapsed time and strictly decreasing in the gap; monotonicity in
elapsed time holds for every startedAt, and at startedAt 0 the function
returns 0. -/
theorem getRestOfDuration_formula_monotone
    (durationTimeout startGenerating gapDuration now : Int) :
    (startGenerating ≠ 0 →
      getRestOfDuration durationTimeout now startGenerating gapDuration
        = durationTimeout - gapDuration - (now - startGenerating)) ∧
    (∀ nlater, now ≤ nlater →
      getRestOfDuration durationTimeout nlater startGenerating gapDuration
        ≤ getRestOfDuration durationTimeout now startGenerating gapDuration) ∧
    (startGenerating ≠ 0 → ∀ glater, gapDuration < glater →
      getRestOfDuration durationTimeout now startGenerating glater
        < getRestOfDuration durationTimeout now startGenerating gapDuration) ∧
    getRestOfDuration durationTimeout now 0 gapDuration = 0 := by
  refine ⟨?_, ?_, ?_, ?_⟩
  · intro hs
    simp [getRestOfDuration, hs]
  · intro nlater hn
    by_cases h0 : startGenerating = 0
    · simp [getRestOfDuration, h0]
    · simp [getRestOfDuration, h0]
      omega
  · intro hs glater hg
    simp [getRestOfDuration, hs]
    omega
  · simp [getRestOfDuration]

/-- Witness for getRestOfDuration_formula_monotone at concrete inputs. -/
theorem getRestOfDuration_formula_monotone_witness :
    getRestOfDuration 20000 10 3 1500 = 20000 - 1500 - (10 - 3) ∧
    getRestOfDuration 20000 11 3 1500 ≤ getRestOfDuration 20000 10 3 1500 ∧
    getRestOfDuration 20000 10 3 1600 < getRestOfDuration 20000 10 3 1500 :=
  ⟨(getRestOfDuration_formula_monotone 20000 3 1500 10).1 (by decide),
   (getRestOfDuration_formula_monotone 20000 3 1500 10).2.1 11 (by decide),
   (getRestOfDuration_formula_monotone 20000 3 1500 10).2.2.1 (by decide) 1600 (by decide)⟩

/-- C4: fetchData is total, and whenever its try block fails (network error
or a throwing JSON.parse on a brace-shaped body) the failure is converted
into the response with status 500 and empty data; on success the response
of the try block is returned unchanged, so no error ever reaches the
caller. -/
theorem fetchData_error_contained (netResult : Option FetchResponse)
    (jsonParse : String → Option String) :
    (∃ r, fetchDataBody netResult jsonParse = Except.ok r ∧
        fetchData netResult jsonParse = r) ∨
    (∃ e, fetchDataBody netResult jsonParse = Except.error e ∧
        fetchData netResult jsonParse = { status := 500, data := "" }) := by
  cases h : fetchDataBody netResult jsonParse with
  | ok r => exact Or.inl ⟨r, rfl, by simp [fetchData, h]⟩
  | error e => exact Or.inr ⟨e, rfl, by simp [fetchData, h]⟩

/-- C8: the response body is handed to the JSON decoder exactly when it has
the full-span brace shape of the source regex; a body of that shape yields
the parsed value (or the caught-error response when parsing throws), and
any other body is returned verbatim, untouched by the decoder. -/
theorem fetch_json_decode_iff_shape (resp : FetchResponse)
    (jsonParse : String → Option String) :
    (isJsonShape resp.data = true →
      fetchData (some resp) jsonParse =
        (match jsonParse resp.data with
         | some v => { status := resp.status, data := v }
         | none => { status := 500, data := "" })) ∧
    (isJsonShape resp.data = false → fetchData (some resp) jsonParse = resp) := by
  constructor
  · intro hshape
    cases hp : jsonParse resp.data <;> simp [fetchData, fetchDataBody, hshape, hp]
  · intro hshape
    simp [fetchData, fetchDataBody, hshape]

/-- Witness for fetch_json_decode_iff_shape: a brace-shaped body is decoded
and a plain html body is used verbatim. -/
theorem fetch_json_decode_iff_shape_witness :
    isJsonShape ("\x7b\x22a\x22:1\x7d") = true ∧
    fetchData (some { status := 200, data := "\x7b\x22a\x22:1\x7d" })
        (fun _ => some ("parsed")) = { status := 200, data := "parsed" } ∧
    isJsonShape ("<html></html>") = false ∧
    fetchData (some { status := 201, data := "<html></html>" })
        (fun _ => some ("parsed")) = { status := 201, data := "<html></html>" } :=
  ⟨by decide,
   (fetch_json_decode_iff_shape { status := 200, data := "\x7b\x22a\x22:1\x7d" }
      (fun _ => some ("parsed"))).1 (by decide),
   by decide,
   (fetch_json_decode_iff_shape { status := 201, data := "<html></html>" }
      (fun _ => some ("parsed"))).2 (by decide)⟩

/-- C1 counterexample: with the budget already exhausted at the first check
and isFirstRequest false, the handler returns nothing and performs no call
at all, even though the cache oracle would have served a stale entry; the
result therefore differs from what achieve returns. -/
theorem budget_first_check_skips_achieve_cex :
    rem1 envC1 ≤ 0 ∧ pC1.isFirstRequest = false ∧
    ISRHandler envC1 pC1 = (none, []) ∧
    envC1.achieveResult = some { status := 200, html := some ("cached") } ∧
    (none : Option RenderResult) ≠ envC1.achieveResult := by
  decide

/-- C1 amended: when the remaining budget with the 1500 ms gap is not
positive at the first check, render returns nothing with an empty trace (no
acquisition, no cache access); the stale-serve fallback through achieve
happens exactly when the first check still passes, the second check fails
and the request is not the first one, again with no acquisition
attempted. -/
theorem budget_exhausted_stale_fallback (env : Env) (p : IISRHandlerParam)
    (hfirst : p.isFirstRequest = false) :
    (rem1 env ≤ 0 → ISRHandler env p = (none, [])) ∧
    (0 < rem1 env → rem2 env ≤ 0 →
      ISRHandler env p = (env.achieveResult, [Effect.cacheAchieve p.url])) := by
  constructor
  · intro h
    simp [ISRHandler, h]
  · intro h1 h2
    have h1' : ¬ rem1 env ≤ 0 := by omega
    simp [ISRHandler, h1', h2, hfirst]

/-- Witness for budget_exhausted_stale_fallback: the second check fails and
the stale entry is served. -/
theorem budget_exhausted_stale_fallback_witness :
    ISRHandler envC1w pC1w = (envC1w.achieveResult, [Effect.cacheAchieve ("https://site/b")]) :=
  (budget_exhausted_stale_fallback envC1w pC1w (by decide)).2 (by decide) (by decide)

/-- C10: the handler never reads the startGenerating field of its
parameter, so its behaviour is the same for any caller-supplied value; and
whenever the configured timeout exceeds the 1500 ms gap plus the time spent
between entry and each check (with a genuine nonzero entry clock), neither
budget-exhausted branch is taken: the trace starts with an acquisition
effect (external crawl or browser page request). -/
theorem render_ignores_caller_start (env : Env) (p : IISRHandlerParam)
    (h0 : env.t0 ≠ 0)
    (h1 : 0 < env.durationTimeout - gapDurationDefault - (env.t1 - env.t0))
    (h2 : 0 < env.durationTimeout - gapDurationDefault - (env.t2 - env.t0)) :
    (∀ sgA sgB,
      ISRHandler env { startGenerating := sgA, isFirstRequest := p.isFirstRequest, url := p.url }
        = ISRHandler env { startGenerating := sgB, isFirstRequest := p.isFirstRequest, url := p.url }) ∧
    ((ISRHandler env p).snd.head? = some (Effect.externalCrawl p.url) ∨
      (ISRHandler env p).snd.head? = some Effect.browserNewPage) := by
  have hr1 : ¬ rem1 env ≤ 0 := by
    simp [rem1, getRestOfDuration, h0]
    omega
  have hr2 : ¬ rem2 env ≤ 0 := by
    simp [rem2, getRestOfDuration, h0]
    omega
  constructor
  · intro sgA sgB
    rfl
  · cases hc : env.crawler with
    | some c =>
        by_cases hs : (fetchData env.netResult env.jsonParse).status = 500 <;>
          simp [ISRHandler, hr1, hr2, hc, hs]
    | none =>
        refine Or.inr ?_
        simpa [ISRHandler, hr1, hr2, hc] using browserPath_head env p.isFirstRequest p.url 200

/-- Witness for render_ignores_caller_start in the healthy base
environment. -/
theorem render_ignores_caller_start_witness :
    (ISRHandler baseEnv { startGenerating := 77, isFirstRequest := true, url := "https://site/c" }).snd.head?
        = some (Effect.externalCrawl ("https://site/c")) ∨
    (ISRHandler baseEnv { startGenerating := 77, isFirstRequest := true, url := "https://site/c" }).snd.head?
        = some Effect.browserNewPage :=
  (render_ignores_caller_start baseEnv
    { startGenerating := 77, isFirstRequest := true, url := "https://site/c" }
    (by decide) (by decide) (by decide)).2

/-- C2: whenever the classify step runs with a status outside the cacheable
set of 200 and 302, the cache entry for the url is removed, the returned
result carries that status, the html is the literal not-found text exactly
when the status is 404 and the raw acquired html otherwise, and no cache
write happens on this branch. -/
theorem uncacheable_status_evicts (env : Env) (url : String) (status : Int)
    (html : String) (h : cacheableStatus status = false) :
    classifyAndFinish env url status html =
      (some { status := status,
              html := some (if status = 404 then ("Page not found!") else html) },
        [Effect.cacheRemove url]) ∧
    (∀ u v b, Effect.cacheSet u v b ∉ (classifyAndFinish env url status html).snd) := by
  constructor
  · simp [classifyAndFinish, h]
  · intro u v b
    simp [classifyAndFinish, h]

/-- Witness for uncacheable_status_evicts at status 404. -/
theorem uncacheable_status_evicts_witness :
    cacheableStatus 404 = false ∧
    classifyAndFinish baseEnv ("https://site/d") 404 ("<p>raw</p>") =
      (some { status := 404, html := some ("Page not found!") },
        [Effect.cacheRemove ("https://site/d")]) :=
  ⟨by decide,
   (uncacheable_status_evicts baseEnv ("https://site/d") 404 ("<p>raw</p>") (by decide)).1⟩

/-- C3: with an optimization pool whose jobs always throw, the handler
never writes the cache, and every execution that reaches the optimization
step (witnessed by an optimization effect in the trace) returns no
result. -/
theorem optimize_failure_never_caches (env : Env) (p : IISRHandlerParam)
    (hopt : ∀ x, env.optimize x = none) :
    (∀ u v b, Effect.cacheSet u v b ∉ (ISRHandler env p).snd) ∧
    (∀ v b, Effect.optimizeExec v b ∈ (ISRHandler env p).snd →
      (ISRHandler env p).fst = none) := by
  by_cases hr1 : rem1 env ≤ 0
  · constructor
    · intro u v b
      simp [ISRHandler, hr1]
    · intro v b hm
      simp [ISRHandler, hr1] at hm
  · by_cases hr2 : rem2 env ≤ 0
    · by_cases hf : p.isFirstRequest = false
      · constructor
        · intro u v b
          simp [ISRHandler, hr1, hr2, hf]
        · intro v b hm
          simp [ISRHandler, hr1, hr2, hf] at hm
      · constructor
        · intro u v b
          simp [ISRHandler, hr1, hr2, hf]
        · intro v b hm
          simp [ISRHandler, hr1, hr2, hf] at hm
    · cases hc : env.crawler with
      | none =>
          constructor
          · intro u v b
            simpa [ISRHandler, hr1, hr2, hc] using
              browserPath_set_free_of_optfail env p.isFirstRequest p.url 200 hopt u v b
          · intro v b hm
            simp [ISRHandler, hr1, hr2, hc] at hm ⊢
            exact browserPath_optexec_none env p.isFirstRequest p.url 200 hopt v b hm
      | some c =>
          by_cases hs : (fetchData env.netResult env.jsonParse).status = 500
          · constructor
            · intro u v b
              have := browserPath_set_free_of_optfail env p.isFirstRequest p.url
                (fetchData env.netResult env.jsonParse).status hopt u v b
              simp [ISRHandler, hr1, hr2, hc, hs] at this ⊢
              exact this
            · intro v b hm
              simp [ISRHandler, hr1, hr2, hc, hs] at hm ⊢
              exact browserPath_optexec_none env p.isFirstRequest p.url 500 hopt v b hm
          · constructor
            · intro u v b
              have := classify_set_free_of_optfail env p.url
                (fetchData env.netResult env.jsonParse).status
                (fetchData env.netResult env.jsonParse).data hopt u v b
              simp [ISRHandler, hr1, hr2, hc, hs] at this ⊢
              exact this
            · intro v b hm
              simp [ISRHandler, hr1, hr2, hc, hs] at hm ⊢
              exact classify_optexec_none env p.url
                (fetchData env.netResult env.jsonParse).status
                (fetchData env.netResult env.jsonParse).data hopt v b hm

/-- Witness for optimize_failure_never_caches: the crawl succeeds, the
optimization job throws, no cache write occurs and the result is absent. -/
theorem optimize_failure_never_caches_witness :
    Effect.cacheSet ("https://site/h") ("x") true ∉ (ISRHandler envC3 pC3).snd ∧
    (ISRHandler envC3 pC3).fst = none :=
  ⟨(optimize_failure_never_caches envC3 pC3 (fun _ => rfl)).1 ("https://site/h") ("x") true,
   (optimize_failure_never_caches envC3 pC3 (fun _ => rfl)).2 ("<html>x</html>") true (by decide)⟩

/-- C5: past the budget checks, the browser-render path is entered exactly
once when no external crawl endpoint is configured or when the external
crawl reported status 500, and not at all for any other crawl status. -/
theorem browser_fallback_iff (env : Env) (p : IISRHandlerParam)
    (h1 : 0 < rem1 env) (h2 : 0 < rem2 env) :
    (ISRHandler env p).snd.countP isNewPageEffect =
      (if env.crawler = none ∨ (fetchData env.netResult env.jsonParse).status = 500
        then 1 else 0) := by
  have hr1 : ¬ rem1 env ≤ 0 := by omega
  have hr2 : ¬ rem2 env ≤ 0 := by omega
  cases hc : env.crawler with
  | none =>
      simp [ISRHandler, hr1, hr2, hc, browserPath_newPage_count]
  | some c =>
      by_cases hs : (fetchData env.netResult env.jsonParse).status = 500
      · simp [ISRHandler, hr1, hr2, hc, hs, List.countP_cons, isNewPageEffect,
          browserPath_newPage_count]
      · simp [ISRHandler, hr1, hr2, hc, hs, List.countP_cons, isNewPageEffect,
          classify_newPage_count]

/-- Witness for browser_fallback_iff: a crawl failure with status 500
triggers exactly one browser page acquisition. -/
theorem browser_fallback_iff_witness :
    (ISRHandler envC5 { startGenerating := 0, isFirstRequest := true, url := "https://site/e" }).snd.countP isNewPageEffect
      = (if envC5.crawler = none ∨ (fetchData envC5.netResult envC5.jsonParse).status = 500
          then 1 else 0) :=
  browser_fallback_iff envC5
    { startGenerating := 0, isFirstRequest := true, url := "https://site/e" }
    (by decide) (by decide)

/-- C7 counterexample: on a first request with no page handle available the
handler returns nothing, not a result with status 500 as the claim
states. -/
theorem no_page_first_request_cex :
    envC7.hasPage = false ∧ pC7.isFirstRequest = true ∧
    ISRHandler envC7 pC7 = (none, [Effect.browserNewPage]) ∧
    (none : Option RenderResult) ≠ some { status := 500, html := none } := by
  decide

/-- C7 amended: on the browser path of a first request with no page handle
available, the handler returns no result (absent), and no cache mutation
(neither a write nor a removal) occurs. -/
theorem no_page_first_request_absent (env : Env) (p : IISRHandlerParam)
    (h1 : 0 < rem1 env) (h2 : 0 < rem2 env)
    (hb : env.crawler = none ∨ (fetchData env.netResult env.jsonParse).status = 500)
    (hp : env.hasPage = false) (hf : p.isFirstRequest = true) :
    (ISRHandler env p).fst = none ∧
    (∀ u v b, Effect.cacheSet u v b ∉ (ISRHandler env p).snd) ∧
    (∀ u, Effect.cacheRemove u ∉ (ISRHandler env p).snd) := by
  have hr1 : ¬ rem1 env ≤ 0 := by omega
  have hr2 : ¬ rem2 env ≤ 0 := by omega
  cases hc : env.crawler with
  | none =>
      refine ⟨?_, ?_, ?_⟩ <;>
        simp [ISRHandler, hr1, hr2, hc, browserPath, hp, hf]
  | some c =>
      have hs : (fetchData env.netResult env.jsonParse).status = 500 := by
        rcases hb with hb | hb
        · simp [hc] at hb
        · exact hb
      refine ⟨?_, ?_, ?_⟩ <;>
        simp [ISRHandler, hr1, hr2, hc, hs, browserPath, hp, hf]

/-- Witness for no_page_first_request_absent in the concrete no-page
environment. -/
theorem no_page_first_request_absent_witness :
    (ISRHandler envC7 pC7).fst = none ∧
    Effect.cacheSet ("u") ("v") true ∉ (ISRHandler envC7 pC7).snd ∧
    Effect.cacheRemove ("u") ∉ (ISRHandler envC7 pC7).snd :=
  ⟨(no_page_first_request_absent envC7 pC7 (by decide) (by decide)
      (Or.inl (by decide)) (by decide) (by decide)).1,
   (no_page_first_request_absent envC7 pC7 (by decide) (by decide)
      (Or.inl (by decide)) (by decide) (by decide)).2.1 ("u") ("v") true,
   (no_page_first_request_absent envC7 pC7 (by decide) (by decide)
      (Or.inl (by decide)) (by decide) (by decide)).2.2 ("u")⟩

/-- C9: on the browser path, once the serialized document content has been
read, the handler classifies the status through the sentinel test alone:
404 exactly when the html is non-empty and the not-found marker regex finds
a match, 200 otherwise; the incoming status (from the crawl attempt or the
navigation response) has no influence on the outcome. -/
theorem notfound_sentinel_classification (env : Env) (f : Bool) (url : String)
    (s : Int) (html : String) (hp : env.hasPage = true) (hsetup : env.setupOk = true)
    (hw : env.waitOutcome ≠ WaitOutcome.fatalErr) (hcont : env.pageContent = some html) :
    browserPath env f url s =
      ((classifyAndFinish env url (classifyBrowserStatus env.notFoundPageID html) html).fst,
        Effect.browserNewPage ::
          (classifyAndFinish env url (classifyBrowserStatus env.notFoundPageID html) html).snd) ∧
    (classifyBrowserStatus env.notFoundPageID html = 404 ↔
      html ≠ "" ∧ notFoundMarkerTest env.notFoundPageID html = true) ∧
    (classifyBrowserStatus env.notFoundPageID html = 404 ∨
      classifyBrowserStatus env.notFoundPageID html = 200) ∧
    (∀ sA sB, browserPath env f url sA = browserPath env f url sB) := by
  have hhp : ¬ env.hasPage = false := by simp [hp]
  have hhs : ¬ env.setupOk = false := by simp [hsetup]
  refine ⟨?_, ?_, ?_, ?_⟩
  · cases hwv : env.waitOutcome with
    | fatalErr => exact absurd hwv hw
    | ok st => simp [browserPath, hhp, hhs, hwv, hcont]
    | timeoutErr => simp [browserPath, hhp, hhs, hwv, hcont]
  · by_cases hcl : html ≠ "" ∧ notFoundMarkerTest env.notFoundPageID html = true <;>
      simp [classifyBrowserStatus, hcl]
  · by_cases hcl : html ≠ "" ∧ notFoundMarkerTest env.notFoundPageID html = true <;>
      simp [classifyBrowserStatus, hcl]
  · intro sA sB
    rfl

/-- Witness for notfound_sentinel_classification: a document carrying the
default sentinel element id is classified 404. -/
theorem notfound_sentinel_classification_witness :
    classifyBrowserStatus ("404-page") ("<div id=\x22404-page\x22></div>") = 404 :=
  ((notfound_sentinel_classification envC9 true ("https://site/g") 200
      ("<div id=\x22404-page\x22></div>") (by decide) (by decide) (by decide)
      (by decide)).2.1).mpr (by decide)

end ISR
